import Mathlib

/-!
A shallow embedding of the USB camera recorder `usbRecord-V2.py`: the
elapsed-time formatter `format_time`, the state updates and the frame loop of
`USBRecord.start_record`, the control methods `start_time_mark` and
`stop_record`, the frame-extraction pass `video_slice`, and the resource
release path `release_camera` / `__del__`.  Machine time is modelled as
natural-number milliseconds; the camera, the writer and the filesystem are
modelled by the values the code exchanges with them.
-/

namespace USBRec

/-- One decimal digit rendered as a character (codepoint 48 + digit). -/
def digitChar (n : Nat) : Char := Char.ofNat (48 + n)

/-- Fuel-driven decimal rendering of a natural number, most significant digit
first; the fuel `n + 1` always suffices since `n / 10 < n` for `n ≥ 10`. -/
def natDigitsCore : Nat → Nat → List Char → List Char
  | 0, _, acc => acc
  | fuel + 1, n, acc =>
    if n < 10 then digitChar n :: acc
    else natDigitsCore fuel (n / 10) (digitChar (n % 10) :: acc)

/-- Decimal digits of `n`, as Python's `d` formatting prints them. -/
def natDigits (n : Nat) : List Char := natDigitsCore (n + 1) n []

/-- Python zero padding `n` formatted `0wd`: pad the decimal digits of `n`
with leading zeros up to width `w` (wider numbers are printed unpadded). -/
def padChars (w n : Nat) : List Char :=
  List.replicate (w - (natDigits n).length) '0' ++ natDigits n

/-- Decimal string of `n`, Python `str(n)` inside an f-string. -/
def decString (n : Nat) : String := ⟨natDigits n⟩

/-- Embedding of `format_time(times)` (lines 107-122): decompose a
millisecond count by `divmod(times, 1000)`, `divmod(seconds, 3600)`,
`divmod(remainder, 60)` and print `hours:02d`, `minutes:02d`, `seconds:02d`,
`ms:03d` separated by colons and a dot. -/
def format_time (times : Nat) : String :=
  let seconds := times / 1000
  let ms := times % 1000
  let hours := seconds / 3600
  let remainder := seconds % 3600
  let minutes := remainder / 60
  let secs := remainder % 60
  ⟨padChars 2 hours ++ ':' :: padChars 2 minutes ++ ':' :: padChars 2 secs ++
    '.' :: padChars 3 ms⟩

/-- The claimed output pattern: twelve characters, two digits, a colon, two
digits, a colon, two digits, a dot and three digits. -/
def matchesTimePattern (s : String) : Bool :=
  match s.data with
  | [a, b, c, d, e, f, g, h, i, j, k, l] =>
    a.isDigit && b.isDigit && c == ':' && d.isDigit && e.isDigit && f == ':' &&
      g.isDigit && h.isDigit && i == '.' && j.isDigit && k.isDigit && l.isDigit
  | _ => false

/-- Numeric value of a digit character. -/
def charVal (c : Char) : Nat := c.toNat - 48

/-- Arithmetic parse of a `HH:MM:SS.mmm` string back to milliseconds;
`none` when the string does not have the twelve-character shape. -/
def parse_time (s : String) : Option Nat :=
  match s.data with
  | [a, b, c, d, e, f, g, h, i, j, k, l] =>
    if c == ':' && f == ':' && i == '.' then
      some ((charVal a * 10 + charVal b) * 3600000 +
        (charVal d * 10 + charVal e) * 60000 +
        (charVal g * 10 + charVal h) * 1000 +
        (charVal j * 100 + charVal k * 10 + charVal l))
    else none
  | _ => none

/-- Boolean check that a two-wide zero-padded field is two digit characters
whose value reads back to `n`. -/
def pad2OK (n : Nat) : Bool :=
  match padChars 2 n with
  | [a, b] => a.isDigit && b.isDigit && (charVal a * 10 + charVal b == n)
  | _ => false

/-- Boolean check that a three-wide zero-padded field is three digit
characters whose value reads back to `n`. -/
def pad3OK (n : Nat) : Bool :=
  match padChars 3 n with
  | [a, b, c] =>
    a.isDigit && b.isDigit && c.isDigit &&
      (charVal a * 100 + charVal b * 10 + charVal c == n)
  | _ => false

/-- A `cv2.VideoCapture` handle: whether the underlying device is currently
open, and how many times an actual open-to-closed release of the handle has
happened. -/
structure CvCapture where
  opened : Bool
  releaseCount : Nat
deriving DecidableEq

/-- Embedding of `cv2.VideoCapture.release()`: closes the handle when open;
OpenCV documents `release` as safe on an already-released capture, so a
second call leaves the handle unchanged and performs no further release. -/
def cvRelease (c : CvCapture) : CvCapture :=
  if c.opened then { opened := false, releaseCount := c.releaseCount + 1 } else c

/-- The attributes of a `USBRecord` object touched by the claims (lines
149-174): the overlay-enable flag `record_mark`, the cross-thread stop flag
`is_stop_record`, the lazy overlay anchor `start_mark_time` (milliseconds),
the camera handle, and the path bookkeeping fields. -/
structure USBRecord where
  device_index : Nat
  record_mark : Bool
  is_stop_record : Bool
  start_mark_time : Option Nat
  camera : Option CvCapture
  save_path : Option String
  record_name : Option String
  filename : Option String
deriving DecidableEq

/-- The attribute updates `start_record` performs on entry before the frame
loop (lines 250-263): reset `record_mark` and `is_stop_record` to `False`,
store `save_path`, and derive `record_name` and `filename` from the test
case name, the wall-clock string and the count.  `start_mark_time` is left
untouched. -/
def start_record_init (r : USBRecord) (save_path test_case_name now_time : String)
    (count : Nat) : USBRecord :=
  { r with
    record_mark := false
    is_stop_record := false
    save_path := some save_path
    record_name := some (test_case_name ++ "_" ++ now_time ++ "_" ++ decString count)
    filename := some (save_path ++ "/" ++ test_case_name ++ "_" ++ now_time ++ "_" ++
      decString count ++ ".avi") }

/-- Embedding of `start_time_mark` (lines 297-307): enable the overlay and
clear the anchor so the next labeled frame becomes time zero. -/
def start_time_mark (r : USBRecord) : USBRecord :=
  { r with record_mark := true, start_mark_time := none }

/-- How `target.join()` behaves inside `stop_record`: it returns, or raises
one of the exception classes the method catches. -/
inductive JoinBehavior where
  | ok
  | raiseAttributeError
  | raiseRuntimeError
  | raiseOther
deriving DecidableEq

/-- Which branch of `stop_record` handled the join. -/
inductive JoinOutcome where
  | joined
  | caughtAttributeError
  | caughtRuntimeError
  | caughtOther
deriving DecidableEq

/-- Embedding of `stop_record(target)` (lines 309-327): set
`is_stop_record = True` first, then try to join; `AttributeError`,
`RuntimeError` and every other `Exception` are caught and only logged, so the
method returns normally in every case with the flag still set. -/
def stop_record (r : USBRecord) (jb : JoinBehavior) : USBRecord × JoinOutcome :=
  let r1 := { r with is_stop_record := true }
  match jb with
  | .ok => (r1, .joined)
  | .raiseAttributeError => (r1, .caughtAttributeError)
  | .raiseRuntimeError => (r1, .caughtRuntimeError)
  | .raiseOther => (r1, .caughtOther)

/-- Embedding of `release_camera` (lines 368-372): when `self.camera` is a
truthy object, call its `release()`.  The attribute keeps pointing at the
(now released) capture object; it is not reset to `None`. -/
def release_camera (r : USBRecord) : USBRecord :=
  match r.camera with
  | none => r
  | some c => { r with camera := some (cvRelease c) }

/-- Embedding of `__del__` (lines 374-376): the destructor path simply calls
`release_camera`. -/
def del_USBRecord (r : USBRecord) : USBRecord := release_camera r

/-- Per-iteration environment of the `while True` loop of `start_record`
(lines 271-293): whether `self.camera.read()` returned a frame, the identity
of that frame, the values of the cross-thread attributes `record_mark` and
`is_stop_record` as read in this iteration, and the `time.time()` values (in
milliseconds) at the three call sites of the iteration: the anchor
assignment (line 278), the overlay elapsed computation (line 279) and the
timeout check (line 285). -/
structure LoopInput where
  readOk : Bool
  frameId : Nat
  record_mark : Bool
  is_stop_record : Bool
  tAnchor : Nat
  tFrame : Nat
  tCheck : Nat
deriving DecidableEq

/-- A frame as it reaches `writer.write`: its identity and, when the overlay
was drawn, the elapsed milliseconds stamped onto it. -/
structure WrittenFrame where
  frameId : Nat
  overlay : Option Nat
deriving DecidableEq

/-- The loop-visible mutable state: the `start_mark_time` attribute and the
sequence of frames written to the `VideoWriter` so far. -/
structure LoopState where
  start_mark_time : Option Nat
  written : List WrittenFrame
deriving DecidableEq

/-- Result of one loop iteration: continue with a new state, or break out of
the loop with a final state. -/
inductive StepResult where
  | cont (s : LoopState)
  | stop (s : LoopState)
deriving DecidableEq

/-- The anchor after the overlay block of one successful iteration: when the
overlay is enabled and the anchor is unset it becomes the current frame time
`tAnchor`, otherwise it is unchanged (lines 276-278). -/
def anchorAfter (s : LoopState) (inp : LoopInput) : Option Nat :=
  if inp.record_mark then some (s.start_mark_time.getD inp.tAnchor)
  else s.start_mark_time

/-- The overlay stamped on the frame of one successful iteration: elapsed
milliseconds since the anchor when the overlay is enabled, nothing otherwise
(lines 276-281). -/
def overlayOf (s : LoopState) (inp : LoopInput) : Option Nat :=
  if inp.record_mark then some (inp.tFrame - s.start_mark_time.getD inp.tAnchor)
  else none

/-- The state after the overlay block and the `writer.write(frame)` call of
one successful iteration (lines 276-283). -/
def writeFrame (s : LoopState) (inp : LoopInput) : LoopState :=
  { start_mark_time := anchorAfter s inp
    written := s.written ++ [⟨inp.frameId, overlayOf s inp⟩] }

/-- One iteration of the recording loop (lines 271-293): on a successful
read, optionally overlay, write the frame, then break when
`self.is_stop_record or elapsed_time >= timeout`; on a failed read, log a
warning and continue with the state unchanged — the exit condition is not
checked on that path. -/
def loopStep (timeout startTime : Nat) (s : LoopState) (inp : LoopInput) : StepResult :=
  if inp.readOk then
    let s2 := writeFrame s inp
    if inp.is_stop_record = true ∨ timeout ≤ inp.tCheck - startTime then .stop s2
    else .cont s2
  else
    .cont s

/-- Run the recording loop over a finite trace of iteration environments.
The boolean tells whether the loop broke out by itself (`true`) or the trace
was exhausted with the loop still running (`false`). -/
def runLoop (timeout startTime : Nat) : LoopState → List LoopInput → LoopState × Bool
  | s, [] => (s, false)
  | s, inp :: rest =>
    match loopStep timeout startTime s inp with
    | .stop s2 => (s2, true)
    | .cont s2 => runLoop timeout startTime s2 rest

/-- The still-image filename `video_slice` writes for frame number `n`
(line 355). -/
def frameImageName (record_name : String) (n : Nat) : String :=
  record_name ++ "_frame_count_" ++ decString n ++ ".jpg"

/-- The read-and-save loop of `video_slice` (lines 351-360), reading the
remaining decodable frames of the artifact in order: returns the image
filenames written and the final `frame_count`. -/
def sliceLoop (record_name : String) : Nat → List Nat → List String × Nat
  | count, [] => ([], count)
  | count, _ :: rest =>
    let r := sliceLoop record_name (count + 1) rest
    (frameImageName record_name count :: r.1, r.2)

/-- Observable outcome of one `video_slice` call: whether the per-record
output directory was created, the image files written (in order), whether
the call terminated the process via `sys.exit(1)`, whether the capture was
released in the `finally` block, and the Python return value of the method. -/
structure SliceOutcome where
  dirCreated : Bool
  images : List String
  exitedProcess : Bool
  released : Bool
  retVal : Option Nat
deriving DecidableEq

/-- Embedding of `video_slice` (lines 329-366).  The artifact is `none` when
`cv2.VideoCapture(self.filename)` cannot open the file, otherwise the list
of its decodable frames.  The method creates the output directory first;
on an unopenable artifact it logs an error and calls `sys.exit(1)` (the
`finally` block still releases the capture); otherwise it saves one image
per frame and falls off the end, returning Python's implicit `None`. -/
def video_slice (artifact : Option (List Nat)) (record_name : String) : SliceOutcome :=
  match artifact with
  | none =>
    { dirCreated := true, images := [], exitedProcess := true,
      released := true, retVal := none }
  | some frames =>
    let r := sliceLoop record_name 0 frames
    { dirCreated := true, images := r.1, exitedProcess := false,
      released := true, retVal := none }

end USBRec

namespace USBRec

set_option maxRecDepth 8000

lemma pad2OK_lt (n : Nat) (h : n < 100) : pad2OK n = true := by
  have hall : ∀ m : Fin 100, pad2OK m.val = true := by decide
  exact hall ⟨n, h⟩

lemma pad3OK_lt (n : Nat) (h : n < 1000) : pad3OK n = true := by
  have hall : ∀ m : Fin 1000, pad3OK m.val = true := by decide
  exact hall ⟨n, h⟩

lemma pad2_shape (n : Nat) (h : n < 100) :
    ∃ a b, padChars 2 n = [a, b] ∧ a.isDigit = true ∧ b.isDigit = true ∧
      charVal a * 10 + charVal b = n := by
  have hok := pad2OK_lt n h
  unfold pad2OK at hok
  rcases hp : padChars 2 n with _ | ⟨a, _ | ⟨b, _ | ⟨c, t⟩⟩⟩ <;>
    rw [hp] at hok <;> simp only [Bool.and_eq_true, beq_iff_eq] at hok
  · exact absurd hok (by simp)
  · exact absurd hok (by simp)
  · obtain ⟨⟨h1, h2⟩, h3⟩ := hok
    exact ⟨a, b, rfl, h1, h2, h3⟩
  · exact absurd hok (by simp)

lemma pad3_shape (n : Nat) (h : n < 1000) :
    ∃ a b c, padChars 3 n = [a, b, c] ∧ a.isDigit = true ∧ b.isDigit = true ∧
      c.isDigit = true ∧ charVal a * 100 + charVal b * 10 + charVal c = n := by
  have hok := pad3OK_lt n h
  unfold pad3OK at hok
  rcases hp : padChars 3 n with _ | ⟨a, _ | ⟨b, _ | ⟨c, _ | ⟨d, t⟩⟩⟩⟩ <;>
    rw [hp] at hok <;> simp only [Bool.and_eq_true, beq_iff_eq] at hok
  · exact absurd hok (by simp)
  · exact absurd hok (by simp)
  · exact absurd hok (by simp)
  · obtain ⟨⟨⟨h1, h2⟩, h3⟩, h4⟩ := hok
    exact ⟨a, b, c, rfl, h1, h2, h3, h4⟩
  · exact absurd hok (by simp)

/-- C5 (amended): for every millisecond count below one hundred hours
(`t < 360000000`), `format_time t` matches the pattern
`DD:DD:DD.DDD` exactly and the arithmetic parse of the output recovers `t`. -/
theorem format_time_pattern_roundtrip (t : Nat) (ht : t < 360000000) :
    matchesTimePattern (format_time t) = true ∧
      parse_time (format_time t) = some t := by
  have hh : t / 1000 / 3600 < 100 := by omega
  have hm : t / 1000 % 3600 / 60 < 60 := by omega
  have hs : t / 1000 % 3600 % 60 < 60 := by omega
  have hms : t % 1000 < 1000 := by omega
  obtain ⟨a, b, hab, hda, hdb, hva⟩ := pad2_shape _ hh
  obtain ⟨c, d, hcd, hdc, hdd, hvc⟩ := pad2_shape _ (by omega : t / 1000 % 3600 / 60 < 100)
  obtain ⟨e, f, hef, hde, hdf, hve⟩ := pad2_shape _ (by omega : t / 1000 % 3600 % 60 < 100)
  obtain ⟨g, h, i, hghi, hdg, hdh, hdi, hvg⟩ := pad3_shape _ hms
  unfold format_time
  simp only []
  rw [hab, hcd, hef, hghi]
  constructor
  · simp only [matchesTimePattern, List.cons_append, List.nil_append]
    simp [hda, hdb, hdc, hdd, hde, hdf, hdg, hdh, hdi]
  · simp only [parse_time, List.cons_append, List.nil_append]
    simp only [beq_self_eq_true, Bool.and_self, if_true]
    rw [hva, hvc, hve, hvg]
    congr 1
    omega

/-- C5 witness: the spec's own example input `3661001` is below the bound,
matches the pattern and round-trips. -/
theorem format_time_pattern_roundtrip_witness :
    3661001 < 360000000 ∧
      matchesTimePattern (format_time 3661001) = true ∧
      parse_time (format_time 3661001) = some 3661001 :=
  ⟨by norm_num, (format_time_pattern_roundtrip 3661001 (by norm_num)).1,
    (format_time_pattern_roundtrip 3661001 (by norm_num)).2⟩

/-- C5 counterexample: at one hundred hours (`t = 360000000` ms) the hours
field takes three digits, so the output fails the two-digit pattern and the
twelve-character arithmetic parse rejects it. -/
theorem format_time_pattern_fails_at_100_hours :
    matchesTimePattern (format_time 360000000) = false ∧
      parse_time (format_time 360000000) = none := by decide

lemma loopStep_fail (timeout startTime : Nat) (s : LoopState) (inp : LoopInput)
    (h : inp.readOk = false) : loopStep timeout startTime s inp = .cont s := by
  simp [loopStep, h]

lemma loopStep_ok_stop (timeout startTime : Nat) (s : LoopState) (inp : LoopInput)
    (h : inp.readOk = true)
    (hc : inp.is_stop_record = true ∨ timeout ≤ inp.tCheck - startTime) :
    loopStep timeout startTime s inp = .stop (writeFrame s inp) := by
  simp only [loopStep, h, if_true]
  rw [if_pos hc]

lemma loopStep_ok_cont (timeout startTime : Nat) (s : LoopState) (inp : LoopInput)
    (h : inp.readOk = true)
    (hc : ¬ (inp.is_stop_record = true ∨ timeout ≤ inp.tCheck - startTime)) :
    loopStep timeout startTime s inp = .cont (writeFrame s inp) := by
  simp only [loopStep, h, if_true]
  rw [if_neg hc]

lemma writeFrame_length (s : LoopState) (inp : LoopInput) :
    (writeFrame s inp).written.length = s.written.length + 1 := by
  simp [writeFrame]

/-- C1 (amended): a failed `camera.read()` is not terminal.  The loop logs a
warning and continues with its state unchanged (no `STOPPING` transition, no
teardown, the frames written so far untouched), the stop/timeout exit checks
are skipped for that iteration, and the next iteration reads the camera
again — the read is retried. -/
theorem read_failure_continues_loop (timeout startTime : Nat) (s : LoopState)
    (inp : LoopInput) (rest : List LoopInput) (h : inp.readOk = false) :
    loopStep timeout startTime s inp = .cont s ∧
    runLoop timeout startTime s (inp :: rest) = runLoop timeout startTime s rest := by
  have h1 := loopStep_fail timeout startTime s inp h
  exact ⟨h1, by simp only [runLoop, h1]⟩

/-- C1 witness: a concrete failed-read iteration leaves the loop running with
an unchanged state. -/
theorem read_failure_continues_loop_witness :
    loopStep 60000 0 ⟨none, []⟩ ⟨false, 9, false, false, 0, 0, 0⟩ =
      .cont ⟨none, []⟩ ∧
    runLoop 60000 0 ⟨none, []⟩ [⟨false, 9, false, false, 0, 0, 0⟩] =
      runLoop 60000 0 ⟨none, []⟩ [] :=
  read_failure_continues_loop 60000 0 ⟨none, []⟩ ⟨false, 9, false, false, 0, 0, 0⟩ [] rfl

/-- C1 counterexample: after a failed read the loop does not stop — it
proceeds to a second read, which succeeds and writes frame `1`; termination
then comes from that later iteration, not from the failure.  So a read
failure is neither terminal nor unretried. -/
theorem read_failure_not_terminal_counterexample :
    loopStep 60000 0 ⟨none, []⟩ ⟨false, 0, false, false, 0, 0, 0⟩ =
      .cont ⟨none, []⟩ ∧
    (runLoop 60000 0 ⟨none, []⟩
      [⟨false, 0, false, false, 0, 0, 0⟩, ⟨true, 1, false, true, 0, 0, 50⟩]).2 = true ∧
    (runLoop 60000 0 ⟨none, []⟩
      [⟨false, 0, false, false, 0, 0, 0⟩, ⟨true, 1, false, true, 0, 0, 50⟩]).1.written =
      [⟨1, none⟩] := by decide

/-- C2 (amended): once the stop flag is set, the loop terminates at the next
iteration whose read succeeds — exactly one further frame is written, so the
artifact is non-empty — but iterations whose read fails skip the exit check
and keep the loop running. -/
theorem stop_flag_terminates_on_next_successful_read (timeout startTime : Nat)
    (s : LoopState) (inps : List LoopInput)
    (hstop : ∀ i ∈ inps, i.is_stop_record = true)
    (hread : ∃ i ∈ inps, i.readOk = true) :
    (runLoop timeout startTime s inps).2 = true ∧
    (runLoop timeout startTime s inps).1.written.length = s.written.length + 1 ∧
    (runLoop timeout startTime s inps).1.written ≠ [] := by
  induction inps generalizing s with
  | nil => simp at hread
  | cons head tail ih =>
    have hsh : head.is_stop_record = true := hstop head (List.mem_cons_self _ _)
    by_cases hr : head.readOk = true
    · have hstep := loopStep_ok_stop timeout startTime s head hr (Or.inl hsh)
      simp only [runLoop, hstep]
      refine ⟨trivial, writeFrame_length s head, ?_⟩
      simp [writeFrame]
    · have hr' : head.readOk = false := by
        cases hb : head.readOk
        · rfl
        · exact absurd hb hr
      have hstep := loopStep_fail timeout startTime s head hr'
      simp only [runLoop, hstep]
      apply ih
      · intro i hi
        exact hstop i (List.mem_cons_of_mem _ hi)
      · rcases hread with ⟨i, hi, hio⟩
        rcases List.mem_cons.mp hi with h1 | h2
        · exact absurd (h1 ▸ hio) hr
        · exact ⟨i, h2, hio⟩

/-- C2 witness: with the stop flag set and one successful read, the loop
terminates and the artifact holds a frame. -/
theorem stop_flag_terminates_on_next_successful_read_witness :
    (runLoop 60000 0 ⟨none, []⟩ [⟨true, 3, false, true, 0, 0, 100⟩]).2 = true ∧
    (runLoop 60000 0 ⟨none, []⟩ [⟨true, 3, false, true, 0, 0, 100⟩]).1.written ≠ [] := by
  have h := stop_flag_terminates_on_next_successful_read 60000 0 ⟨none, []⟩
    [⟨true, 3, false, true, 0, 0, 100⟩] (by decide) (by decide)
  exact ⟨h.1, h.2.2⟩

/-- C2 counterexample: the stop flag is set but the iteration's read fails;
the loop does not terminate within that iteration, refuting "regardless of
whether that iteration's camera read succeeds or fails". -/
theorem stop_flag_ignored_on_failed_read_counterexample :
    (runLoop 60000 0 ⟨none, []⟩ [⟨false, 0, false, true, 0, 0, 0⟩]).2 = false := by decide

/-- C3 (amended): on entry `start_record` resets the stop flag and the
overlay-enable flag to `False`, but it does not clear `start_mark_time`; the
anchor keeps its previous value until `start_time_mark` — which does clear
it — is called. -/
theorem start_record_resets_flags_not_anchor (r : USBRecord)
    (p tc now : String) (cnt : Nat) :
    (start_record_init r p tc now cnt).is_stop_record = false ∧
    (start_record_init r p tc now cnt).record_mark = false ∧
    (start_record_init r p tc now cnt).start_mark_time = r.start_mark_time ∧
    (start_time_mark (start_record_init r p tc now cnt)).start_mark_time = none :=
  ⟨rfl, rfl, rfl, rfl⟩

/-- C3 counterexample: a record carrying a stale anchor (`some 5000`) from a
previous session enters `start_record`; the stop flag is reset but the
anchor is not cleared, refuting the claimed conjunction. -/
theorem start_record_keeps_stale_anchor_counterexample :
    ¬ ((start_record_init ⟨0, true, true, some 5000, none, none, none, none⟩
          "p" "tc" "t" 1).is_stop_record = false ∧
       (start_record_init ⟨0, true, true, some 5000, none, none, none, none⟩
          "p" "tc" "t" 1).start_mark_time = none) := by
  intro h
  exact absurd h.2 (by decide)

/-- C4: when the overlay is enabled and the anchor is still unset, the next
successful iteration anchors `start_mark_time` to that frame's own capture
time `tAnchor` (not to the time `start_time_mark` was called, which never
enters the state: `start_time_mark` stores `none`), and the frame is written
with elapsed `tFrame - tAnchor`; whenever the two adjacent clock reads are
less than 100 ms apart the rendered label starts with `00:00:00.0`. -/
theorem overlay_anchor_is_lazy (r : USBRecord) (timeout startTime : Nat)
    (s : LoopState) (inp : LoopInput)
    (hmark : inp.record_mark = true) (hread : inp.readOk = true)
    (hanchor : s.start_mark_time = none) (hgap : inp.tFrame - inp.tAnchor < 100) :
    (writeFrame s inp).start_mark_time = some inp.tAnchor ∧
    (writeFrame s inp).written =
      s.written ++ [⟨inp.frameId, some (inp.tFrame - inp.tAnchor)⟩] ∧
    (format_time (inp.tFrame - inp.tAnchor)).data.take 10 = "00:00:00.0".data ∧
    (loopStep timeout startTime s inp = .stop (writeFrame s inp) ∨
      loopStep timeout startTime s inp = .cont (writeFrame s inp)) ∧
    (start_time_mark r).start_mark_time = none ∧
    (start_time_mark r).record_mark = true := by
  have hfmt : ∀ n : Fin 100, (format_time n.val).data.take 10 = "00:00:00.0".data := by
    decide
  refine ⟨?_, ?_, hfmt ⟨_, hgap⟩, ?_, rfl, rfl⟩
  · simp [writeFrame, anchorAfter, hmark, hanchor]
  · simp [writeFrame, overlayOf, hmark, hanchor]
  · by_cases hc : inp.is_stop_record = true ∨ timeout ≤ inp.tCheck - startTime
    · exact Or.inl (loopStep_ok_stop timeout startTime s inp hread hc)
    · exact Or.inr (loopStep_ok_cont timeout startTime s inp hread hc)

/-- C4 witness: overlay enabled at an unset anchor, frame read at 500 ms with
the overlay clock read at 503 ms: the anchor becomes 500 and the first label
is essentially zero. -/
theorem overlay_anchor_is_lazy_witness :
    (writeFrame ⟨none, []⟩ ⟨true, 7, true, false, 500, 503, 600⟩).start_mark_time =
      some 500 ∧
    (format_time (503 - 500)).data.take 10 = "00:00:00.0".data := by
  have h := overlay_anchor_is_lazy ⟨0, false, false, none, none, none, none, none⟩
    60000 0 ⟨none, []⟩ ⟨true, 7, true, false, 500, 503, 600⟩ rfl rfl rfl (by norm_num)
  exact ⟨h.1, h.2.2.1⟩

/-- C6: on a successful read with no stop request, an iteration whose
elapsed wall time reaches the timeout first writes the frame and only then
breaks (`loopStep` returns `stop` of the state already extended by that
frame); and over any trace of successful, stop-free reads one of which
crosses the threshold, the loop terminates on its own with strictly more
frames written. -/
theorem timeout_frame_written_before_exit (timeout startTime : Nat) :
    (∀ (s : LoopState) (inp : LoopInput), inp.readOk = true →
      inp.is_stop_record = false → timeout ≤ inp.tCheck - startTime →
      loopStep timeout startTime s inp = .stop (writeFrame s inp)) ∧
    (∀ (s : LoopState) (inps : List LoopInput),
      (∀ i ∈ inps, i.readOk = true ∧ i.is_stop_record = false) →
      (∃ i ∈ inps, timeout ≤ i.tCheck - startTime) →
      (runLoop timeout startTime s inps).2 = true ∧
      s.written.length < (runLoop timeout startTime s inps).1.written.length) := by
  constructor
  · intro s inp h1 _ h3
    exact loopStep_ok_stop timeout startTime s inp h1 (Or.inr h3)
  · intro s inps hall hex
    induction inps generalizing s with
    | nil => simp at hex
    | cons head tail ih =>
      obtain ⟨hro, hsf⟩ := hall head (List.mem_cons_self _ _)
      by_cases hc : timeout ≤ head.tCheck - startTime
      · have hstep := loopStep_ok_stop timeout startTime s head hro (Or.inr hc)
        simp only [runLoop, hstep]
        refine ⟨trivial, ?_⟩
        rw [writeFrame_length s head]
        omega
      · have hstep := loopStep_ok_cont timeout startTime s head hro (by
          intro hd
          rcases hd with hd | hd
          · exact absurd hsf (by simp [hd])
          · exact hc hd)
        simp only [runLoop, hstep]
        have hrec := ih (writeFrame s head)
          (fun i hi => hall i (List.mem_cons_of_mem _ hi))
          (by rcases hex with ⟨i, hi, hio⟩
              rcases List.mem_cons.mp hi with h1 | h2
              · exact absurd (h1 ▸ hio) hc
              · exact ⟨i, h2, hio⟩)
        refine ⟨hrec.1, ?_⟩
        have hlt : s.written.length < (writeFrame s head).written.length := by
          rw [writeFrame_length s head]
          omega
        exact lt_trans hlt hrec.2

/-- C6 witness: with a 10 ms timeout, a stop-free successful read whose
check-time is 12 ms both writes its frame and exits the loop. -/
theorem timeout_frame_written_before_exit_witness :
    loopStep 10 0 ⟨none, []⟩ ⟨true, 2, false, false, 0, 0, 12⟩ =
      .stop (writeFrame ⟨none, []⟩ ⟨true, 2, false, false, 0, 0, 12⟩) ∧
    (runLoop 10 0 ⟨none, []⟩ [⟨true, 2, false, false, 0, 0, 12⟩]).2 = true := by
  have h := timeout_frame_written_before_exit 10 0
  exact ⟨h.1 ⟨none, []⟩ ⟨true, 2, false, false, 0, 0, 12⟩ rfl rfl (by norm_num),
    (h.2 ⟨none, []⟩ [⟨true, 2, false, false, 0, 0, 12⟩] (by decide) (by decide)).1⟩

lemma sliceLoop_spec (name : String) :
    ∀ (frames : List Nat) (c : Nat),
      sliceLoop name c frames =
        ((List.range' c frames.length).map (frameImageName name), c + frames.length) := by
  intro frames
  induction frames with
  | nil => intro c; simp [sliceLoop]
  | cons f rest ih =>
    intro c
    simp only [sliceLoop, ih (c + 1), List.length_cons, List.range'_succ,
      List.map_cons, Prod.mk.injEq]
    exact ⟨trivial, by omega⟩

/-- C7 (amended): extracting an artifact with `N` decodable frames writes
exactly the `N` images named with the zero-based indices `0..N-1` in order,
reaches end-of-stream without error (no process exit, capture released) —
but the method's Python return value is `None`: the frame count is never
returned to the caller. -/
theorem video_slice_extracts_all_frames (frames : List Nat) (name : String) :
    (video_slice (some frames) name).images =
      (List.range frames.length).map (frameImageName name) ∧
    (video_slice (some frames) name).exitedProcess = false ∧
    (video_slice (some frames) name).released = true ∧
    (video_slice (some frames) name).retVal = none := by
  refine ⟨?_, rfl, rfl, rfl⟩
  simp only [video_slice, sliceLoop_spec, List.range_eq_range']

/-- C7 counterexample: on a one-frame artifact the single image
`rec_frame_count_0.jpg` is written, yet the return value is `None`, not the
frame count `1` — `frame_count` stays local to `video_slice`. -/
theorem video_slice_returns_no_count_counterexample :
    (video_slice (some [42]) "rec").images = ["rec_frame_count_0.jpg"] ∧
    (video_slice (some [42]) "rec").retVal = none ∧
    (video_slice (some [42]) "rec").retVal ≠ some 1 := by decide

/-- C8 (amended): on an artifact that cannot be opened, `video_slice` writes
no image files and the capture is released by the `finally` block, but it
does not return an error to its caller: it terminates the whole process via
`sys.exit(1)` — and the per-record output directory has already been created
before the open attempt. -/
theorem video_slice_unopenable_exits (name : String) :
    video_slice none name =
      { dirCreated := true, images := [], exitedProcess := true,
        released := true, retVal := none } := rfl

/-- C8 witness: the unopenable-artifact outcome at a concrete name. -/
theorem video_slice_unopenable_exits_witness :
    video_slice none "bad" =
      { dirCreated := true, images := [], exitedProcess := true,
        released := true, retVal := none } :=
  video_slice_unopenable_exits "bad"

/-- C8 counterexample: at a concrete unopenable artifact the call exits the
process (so nothing is "returned to the caller"), refuting the claimed
report-and-return behavior; no image files exist, though the output
directory was created before the failure. -/
theorem video_slice_unopenable_counterexample :
    (video_slice none "bad").exitedProcess = true ∧
    (video_slice none "bad").images = [] ∧
    (video_slice none "bad").dirCreated = true := by decide

lemma cvRelease_idem (c : CvCapture) : cvRelease (cvRelease c) = cvRelease c := by
  by_cases h : c.opened = true
  · simp [cvRelease, h]
  · simp [cvRelease, h]

/-- C9: releasing twice is safe: `release_camera` is idempotent, the
destructor path `__del__` after an explicit release changes nothing, and the
underlying handle is never released a second time (the release count of the
capture does not grow on the repeated call). -/
theorem release_camera_idempotent (r : USBRecord) :
    release_camera (release_camera r) = release_camera r ∧
    del_USBRecord (release_camera r) = release_camera r ∧
    ∀ c : CvCapture,
      (cvRelease (cvRelease c)).releaseCount = (cvRelease c).releaseCount := by
  have h1 : release_camera (release_camera r) = release_camera r := by
    cases hc : r.camera with
    | none => simp [release_camera, hc]
    | some c => simp [release_camera, hc, cvRelease_idem]
  exact ⟨h1, h1, fun c => by rw [cvRelease_idem]⟩

/-- C10: `stop_record` sets `is_stop_record` before attempting the join, and
every join outcome — normal return, `AttributeError`, `RuntimeError` or any
other exception — leaves the flag set; nothing else of the record changes,
so the recording loop still observes the stop request. -/
theorem stop_record_flag_survives_join_failure (r : USBRecord) (jb : JoinBehavior) :
    (stop_record r jb).1.is_stop_record = true ∧
    (stop_record r jb).1 = { r with is_stop_record := true } := by
  cases jb <;> exact ⟨rfl, rfl⟩

end USBRec
